import Mathlib

/-!
Verification development for the Conflict Lens server (`src/server.mjs`):
a two-stage structured extraction-and-validation pipeline.

Shallow embedding:
* JSON values are modelled by the inductive `Json` (JS numbers as `Rat`).
* The zod schemas (`ClaimSetSchema`, `ConflictReportSchema`, ...) become
  validator functions `Json → Option _` (`none` = the schema rejects, i.e.
  `.parse` throws a `ZodError`).
* The host primitive `JSON.parse` (and `res.json()`) is a parameter
  `jp : String → Option Json` of the generative client.
* `fetch` responses are supplied by an environment `env : Nat → UpstreamResponse`
  giving the response to the `i`-th generative call of a run.
* Fallible JS code (throwing / promise rejection) is `Except`.
-/

/-- A JSON value, as produced by `JSON.parse`.  Numbers are rationals. -/
inductive Json where
  | str : String → Json
  | num : Rat → Json
  | bool : Bool → Json
  | null : Json
  | arr : List Json → Json
  | obj : List (String × Json) → Json

/-- Property access on a JS object: first binding of a key, if any. -/
def lookupField : List (String × Json) → String → Option Json
  | [], _ => none
  | (k, v) :: rest, key => if k = key then some v else lookupField rest key

/-! ## Data contracts (the zod schemas, lines 33-77 of server.mjs) -/

/-- z.enum of `polarity` in `ClaimSchema`. -/
inductive Polarity where
  | affirm | deny | mixed
  deriving DecidableEq

/-- z.enum of `conflict_type` in `ConflictSchema`. -/
inductive ConflictType where
  | numeric_incompatible
  | polarity_incompatible
  | scope_mismatch
  | definition_shift
  | measurement_paradigm_shift
  | other
  deriving DecidableEq

/-- Output of `ClaimSchema.parse`. -/
structure Claim where
  claim_id : String
  assertion : String
  dimension : String
  polarity : Polarity
  value : Option String
  qualifiers : List String
  definition_notes : Option String
  era_hint : Option String
  confidence : Rat
  why_people_repeat_it : Option String
  deriving DecidableEq

/-- Output of `ClaimSetSchema.parse`. -/
structure ClaimSet where
  topic : String
  claims : List Claim
  deriving DecidableEq

/-- Output of `ConflictSchema.parse`. -/
structure Conflict where
  conflict_id : String
  dimension : String
  claim_a : String
  claim_b : String
  conflict_type : ConflictType
  explanation : String
  severity : Rat
  researcher_warning : String
  deriving DecidableEq

/-- Output of the `summary` sub-schema of `ConflictReportSchema`. -/
structure Summary where
  conflict_count : Int
  top_dimensions : List String
  safe_citation_note : String
  deriving DecidableEq

/-- Output of `ConflictReportSchema.parse`. -/
structure ConflictReport where
  topic : String
  conflicts : List Conflict
  summary : Summary
  deriving DecidableEq

/-- `z.string()` applied to the (possibly absent) value of a field. -/
def asStr : Option Json → Option String
  | some (Json.str s) => some s
  | _ => none

/-- `z.string().optional()`: an absent field is fine, a present one must be a string. -/
def asOptStr : Option Json → Option (Option String)
  | none => some none
  | some (Json.str s) => some (some s)
  | _ => none

/-- `z.array(z.string())` element check. -/
def asStrList : List Json → Option (List String)
  | [] => some []
  | Json.str s :: rest => (asStrList rest).map fun l => s :: l
  | _ => none

/-- `z.array(z.string()).default([])`: absent yields `[]`. -/
def asStrArrayDefault : Option Json → Option (List String)
  | none => some []
  | some (Json.arr l) => asStrList l
  | _ => none

/-- `z.number().min(0).max(1)` (the `confidence` / `severity` fields). -/
def asUnitNum : Option Json → Option Rat
  | some (Json.num q) => if 0 ≤ q ∧ q ≤ 1 then some q else none
  | _ => none

/-- `z.number().int().min(0)` (the `conflict_count` field). -/
def asCountNum : Option Json → Option Int
  | some (Json.num q) => if q.den = 1 ∧ 0 ≤ q then some q.num else none
  | _ => none

/-- `z.enum(["affirm", "deny", "mixed"])`. -/
def asPolarity : Option Json → Option Polarity
  | some (Json.str "affirm") => some Polarity.affirm
  | some (Json.str "deny") => some Polarity.deny
  | some (Json.str "mixed") => some Polarity.mixed
  | _ => none

/-- The `conflict_type` z.enum. -/
def asConflictType : Option Json → Option ConflictType
  | some (Json.str "numeric_incompatible") => some ConflictType.numeric_incompatible
  | some (Json.str "polarity_incompatible") => some ConflictType.polarity_incompatible
  | some (Json.str "scope_mismatch") => some ConflictType.scope_mismatch
  | some (Json.str "definition_shift") => some ConflictType.definition_shift
  | some (Json.str "measurement_paradigm_shift") => some ConflictType.measurement_paradigm_shift
  | some (Json.str "other") => some ConflictType.other
  | _ => none

/-- `ClaimSchema` on the fields of an object, abstracted over the field accessor
(zod objects are open: unknown keys are ignored, so validation only ever reads
the declared keys through `get`). -/
def validateClaimFields (get : String → Option Json) : Option Claim := do
  let claim_id ← asStr (get "claim_id")
  let assertion ← asStr (get "assertion")
  let dimension ← asStr (get "dimension")
  let polarity ← asPolarity (get "polarity")
  let value ← asOptStr (get "value")
  let qualifiers ← asStrArrayDefault (get "qualifiers")
  let definition_notes ← asOptStr (get "definition_notes")
  let era_hint ← asOptStr (get "era_hint")
  let confidence ← asUnitNum (get "confidence")
  let why_people_repeat_it ← asOptStr (get "why_people_repeat_it")
  some { claim_id, assertion, dimension, polarity, value, qualifiers,
         definition_notes, era_hint, confidence, why_people_repeat_it }

/-- `ClaimSchema.parse` as a total validator. -/
def validateClaim : Json → Option Claim
  | Json.obj fields => validateClaimFields (lookupField fields)
  | _ => none

/-- `z.array(ClaimSchema)` element-wise validation. -/
def validateClaims : List Json → Option (List Claim)
  | [] => some []
  | j :: rest => do
      let c ← validateClaim j
      let cs ← validateClaims rest
      some (c :: cs)

/-- `ClaimSetSchema.parse`: `topic` a string, `claims` an array of valid
claims with at least 3 entries (`.min(3)`). -/
def validateClaimSet : Json → Option ClaimSet
  | Json.obj fields => do
      let topic ← asStr (lookupField fields "topic")
      match lookupField fields "claims" with
      | some (Json.arr l) => do
          let claims ← validateClaims l
          if 3 ≤ claims.length then some { topic, claims } else none
      | _ => none
  | _ => none

/-- `ConflictSchema` on the fields of an object. -/
def validateConflictFields (get : String → Option Json) : Option Conflict := do
  let conflict_id ← asStr (get "conflict_id")
  let dimension ← asStr (get "dimension")
  let claim_a ← asStr (get "claim_a")
  let claim_b ← asStr (get "claim_b")
  let conflict_type ← asConflictType (get "conflict_type")
  let explanation ← asStr (get "explanation")
  let severity ← asUnitNum (get "severity")
  let researcher_warning ← asStr (get "researcher_warning")
  some { conflict_id, dimension, claim_a, claim_b, conflict_type,
         explanation, severity, researcher_warning }

/-- `ConflictSchema.parse` as a total validator. -/
def validateConflict : Json → Option Conflict
  | Json.obj fields => validateConflictFields (lookupField fields)
  | _ => none

/-- `z.array(ConflictSchema)` element-wise validation (an empty array is valid). -/
def validateConflicts : List Json → Option (List Conflict)
  | [] => some []
  | j :: rest => do
      let c ← validateConflict j
      let cs ← validateConflicts rest
      some (c :: cs)

/-- The `summary` sub-schema: `conflict_count` a non-negative integer,
`top_dimensions` an optional string array defaulting to `[]`,
`safe_citation_note` a string. -/
def validateSummary : Json → Option Summary
  | Json.obj fields => do
      let conflict_count ← asCountNum (lookupField fields "conflict_count")
      let top_dimensions ← asStrArrayDefault (lookupField fields "top_dimensions")
      let safe_citation_note ← asStr (lookupField fields "safe_citation_note")
      some { conflict_count, top_dimensions, safe_citation_note }
  | _ => none

/-- `ConflictReportSchema.parse`: `topic` a string, `conflicts` an array of
valid conflicts (possibly empty), `summary` a valid summary object. -/
def validateConflictReport : Json → Option ConflictReport
  | Json.obj fields => do
      let topic ← asStr (lookupField fields "topic")
      match lookupField fields "conflicts" with
      | some (Json.arr l) => do
          let conflicts ← validateConflicts l
          let summary ← validateSummary ((lookupField fields "summary").getD Json.null)
          some { topic, conflicts, summary }
      | _ => none
  | _ => none

/-! ## Generative client (`openaiJSON`, lines 97-119) -/

/-- What the client observes of one `fetch` response: `res.ok`, `res.status`
and the body text (read by `res.text()` on failure, `res.json()` on success). -/
structure UpstreamResponse where
  ok : Bool
  status : Nat
  body : String

/-- The two failure kinds of the client: a non-success HTTP response
(the `throw new Error(\x60OpenAI error ...\x60)` carrying status and body text),
and a JSON-parse failure carrying the raw text that failed to parse. -/
inductive GenError where
  | upstreamError (status : Nat) (body : String)
  | parseError (rawText : String)
  deriving DecidableEq

/-- `data?.output_text || ""`: the `output_text` field of the response JSON
when it is a string, `""` otherwise (absent / non-object / non-string all
read as the empty string, which then fails `JSON.parse`). -/
def outputTextOf : Json → String
  | Json.obj fields =>
      match lookupField fields "output_text" with
      | some (Json.str s) => s
      | _ => ""
  | _ => ""

/-- `openaiJSON` applied to the single response of its one `fetch` call.
`jp` models the host primitive `JSON.parse` (also backing `res.json()`).
Not `res.ok` fails with the upstream error carrying `res.status` and the body
text; an unparseable body (a rejecting `res.json()`) or an unparseable
`output_text` fails with a parse error carrying the raw text; otherwise the
parsed `output_text` JSON is returned.  No branch retries. -/
def openaiJSON (jp : String → Option Json) (resp : UpstreamResponse) :
    Except GenError Json :=
  if resp.ok = false then
    Except.error (GenError.upstreamError resp.status resp.body)
  else
    match jp resp.body with
    | none => Except.error (GenError.parseError resp.body)
    | some data =>
        match jp (outputTextOf data) with
        | none => Except.error (GenError.parseError (outputTextOf data))
        | some j => Except.ok j

/-- One client invocation against the response environment: consumes exactly
the response at index `i` and advances the call counter by one, whether the
call succeeds or fails (the client never retries internally). -/
def openaiCall (jp : String → Option Json) (env : Nat → UpstreamResponse)
    (i : Nat) : Except GenError Json × Nat :=
  (openaiJSON jp (env i), i + 1)

/-! ## Prompt policy (the instruction strings built in `discoverConflicts`) -/

/-- The strong anti-fabrication directive (the `strict_no_sources` branch of
line 123). -/
def strongAntiFabrication : String :=
  "Do NOT fabricate citations, paper titles, authors, journals, or DOIs."

/-- The weak anti-fabrication directive (line 124). -/
def weakAntiFabrication : String :=
  "Do not fabricate citations."

/-- The `antiCitation` directive: strong wording when `strict_no_sources`,
weak wording otherwise (lines 122-124). -/
def antiCitation (strict_no_sources : Bool) : String :=
  if strict_no_sources then strongAntiFabrication else weakAntiFabrication

/-- `Array.prototype.join("\n")` on a list of strings. -/
def joinNewline : List String → String
  | [] => ""
  | [s] => s
  | s :: rest => s ++ "\n" ++ joinNewline rest

/-- The stage-1 (claim enumeration) instruction string (lines 128-135). -/
def stage1Instructions (max_claims : Nat) (strict_no_sources : Bool) : String :=
  joinNewline
    [ "You enumerate conflicting scientific claims that exist in the literature or popular summaries.",
      "Do not reconcile disagreements. Do not average them.",
      "Each claim must be atomic and testable.",
      "Separate by paradigm, definition, and scope when relevant.",
      antiCitation strict_no_sources,
      "Max claims: " ++ toString max_claims ]

/-- The stage-2 (conflict audit) instruction string (lines 144-150). -/
def stage2Instructions (strict_no_sources : Bool) : String :=
  joinNewline
    [ "You are a contradiction auditor.",
      "Given claims, identify conflicts that cannot both be true under the same scope and definition.",
      "If contradiction depends on scope/definition shifts, mark conflict_type accordingly.",
      "Prioritize conflicts that would mislead a researcher if cited without qualifiers.",
      antiCitation strict_no_sources ]

/-- `pat` occurs as a contiguous substring of `s`. -/
def containsStr (s pat : String) : Prop :=
  ∃ a b : List Char, a ++ pat.data ++ b = s.data

/-! ## Pipeline orchestrator (`discoverConflicts`, lines 121-156) -/

/-- The arguments of `discoverConflicts` (already validated by the tool input
schema at the boundary, so `depth` is a plain string here). -/
structure DiscoverArgs where
  topic : String
  domain : Option String
  depth : String
  max_claims : Nat
  strict_no_sources : Bool

/-- A run-aborting error: an upstream HTTP failure, a JSON parse failure
(both thrown inside `openaiJSON`), or a zod schema violation
(`ZodError`, carrying the rejected value). -/
inductive RunError where
  | upstream (status : Nat) (body : String)
  | parse (rawText : String)
  | schemaViolation (rejected : Json)

/-- How a client failure propagates out of `discoverConflicts` (the `await`
rethrows it unchanged). -/
def RunError.ofGen : GenError → RunError
  | GenError.upstreamError s b => RunError.upstream s b
  | GenError.parseError t => RunError.parse t

/-- One generative call as sent: its instruction string and its input payload
(the object passed to `JSON.stringify`). -/
structure GenCall where
  instructions : String
  payload : Json

/-- Re-serialization of a parsed claim by `JSON.stringify` (absent optional
fields are omitted; `qualifiers` is always present after its default). -/
def encodeClaim (c : Claim) : Json :=
  Json.obj
    ([("claim_id", Json.str c.claim_id),
      ("assertion", Json.str c.assertion),
      ("dimension", Json.str c.dimension),
      ("polarity", Json.str (match c.polarity with
        | Polarity.affirm => "affirm"
        | Polarity.deny => "deny"
        | Polarity.mixed => "mixed"))]
     ++ (match c.value with
        | some v => [("value", Json.str v)]
        | none => [])
     ++ [("qualifiers", Json.arr (c.qualifiers.map Json.str))]
     ++ (match c.definition_notes with
        | some v => [("definition_notes", Json.str v)]
        | none => [])
     ++ (match c.era_hint with
        | some v => [("era_hint", Json.str v)]
        | none => [])
     ++ [("confidence", Json.num c.confidence)]
     ++ (match c.why_people_repeat_it with
        | some v => [("why_people_repeat_it", Json.str v)]
        | none => []))

/-- The stage-1 input payload `{ topic, domain, depth }` (an absent optional
`domain` is dropped by `JSON.stringify`). -/
def stage1Payload (args : DiscoverArgs) : Json :=
  Json.obj
    (("topic", Json.str args.topic)
      :: (match args.domain with
          | some d => [("domain", Json.str d)]
          | none => [])
      ++ [("depth", Json.str args.depth)])

/-- The stage-2 input payload `{ topic: claimSet.topic, claims }` built from
the validated stage-1 output and the truncated claim list (line 151). -/
def stage2Payload (claimSetTopic : String) (claims : List Claim) : Json :=
  Json.obj [("topic", Json.str claimSetTopic),
            ("claims", Json.arr (claims.map encodeClaim))]

/-- The merged composite result `{ ...report, claims }` (line 155). -/
structure DiscoverResult where
  topic : String
  conflicts : List Conflict
  summary : Summary
  claims : List Claim
  deriving DecidableEq

/-- `discoverConflicts`: stage 1 (claim enumeration) → `ClaimSetSchema.parse`
→ prefix truncation to `max_claims` → stage 2 (conflict audit) on the
truncated claims → `ConflictReportSchema.parse` → merge.  Any failure aborts
the whole run with the error; alongside the result it returns the trace of
generative calls actually issued (instructions and payload of each). -/
def discoverConflicts (jp : String → Option Json) (env : Nat → UpstreamResponse)
    (args : DiscoverArgs) : Except RunError DiscoverResult × List GenCall :=
  let call1 : GenCall :=
    { instructions := stage1Instructions args.max_claims args.strict_no_sources,
      payload := stage1Payload args }
  match openaiJSON jp (env 0) with
  | Except.error e => (Except.error (RunError.ofGen e), [call1])
  | Except.ok j1 =>
    match validateClaimSet j1 with
    | none => (Except.error (RunError.schemaViolation j1), [call1])
    | some claimSet =>
      let claims := claimSet.claims.take args.max_claims
      let call2 : GenCall :=
        { instructions := stage2Instructions args.strict_no_sources,
          payload := stage2Payload claimSet.topic claims }
      match openaiJSON jp (env 1) with
      | Except.error e => (Except.error (RunError.ofGen e), [call1, call2])
      | Except.ok j2 =>
        match validateConflictReport j2 with
        | none => (Except.error (RunError.schemaViolation j2), [call1, call2])
        | some report =>
          (Except.ok { topic := report.topic, conflicts := report.conflicts,
                       summary := report.summary, claims := claims },
           [call1, call2])

/-! ## Telemetry sink (`trackEvent`, lines 79-95) and the tool handler
(`discover_conflicting_claims`, lines 166-189) -/

/-- `trackEvent`: returns immediately when either analytics credential is
absent; otherwise issues one `fetch` whose outcome (`phOutcome`, supplied by
the environment) has any rejection swallowed by `.catch(fun _ => unit)`.
The request body (event name, distinct id, properties) does not influence
the outcome and is elided.  The function never rejects. -/
def trackEvent (phKey phHost : String) (phOutcome : Except String Unit) :
    Except String Unit :=
  if phKey = "" ∨ phHost = "" then Except.ok ()
  else
    match phOutcome with
    | Except.ok _ => Except.ok ()
    | Except.error _ => Except.ok ()

/-- Failure of a tool invocation: a pipeline error rethrown by
`await discoverConflicts`, or an analytics rejection rethrown by
`await trackEvent` (shown unreachable below). -/
inductive ToolError where
  | run (e : RunError)
  | analytics (msg : String)

/-- The value returned by the `discover_conflicting_claims` handler:
the fixed content text and the composite result as `structuredContent`. -/
structure ToolResult where
  text : String
  structuredContent : DiscoverResult

/-- The `discover_conflicting_claims` tool handler: run `discoverConflicts`,
then `await trackEvent` (whose rejection, if it could happen, would fail the
invocation — the `await` rethrows), then return the result.  The generative
call trace is returned alongside. -/
def toolHandler (jp : String → Option Json) (env : Nat → UpstreamResponse)
    (args : DiscoverArgs) (phKey phHost : String)
    (phOutcome : Except String Unit) :
    Except ToolError ToolResult × List GenCall :=
  match discoverConflicts jp env args with
  | (Except.error e, calls) => (Except.error (ToolError.run e), calls)
  | (Except.ok result, calls) =>
    match trackEvent phKey phHost phOutcome with
    | Except.error msg => (Except.error (ToolError.analytics msg), calls)
    | Except.ok _ =>
      (Except.ok { text := "Conflict Lens report ready.",
                   structuredContent := result }, calls)

/-! ## Helper lemmas -/

/-- Element-wise claim validation preserves length. -/
theorem validateClaims_length (l : List Json) (cs : List Claim)
    (h : validateClaims l = some cs) : cs.length = l.length := by
  induction l generalizing cs with
  | nil => simp [validateClaims] at h; simp [← h]
  | cons j rest ih =>
    simp only [validateClaims, Option.bind_eq_bind, Option.bind_eq_some] at h
    obtain ⟨c, _, cs', hrest, hcs⟩ := h
    simp only [Option.some.injEq] at hcs
    subst hcs
    simp [ih cs' hrest]

/-- A validated claim set has at least 3 claims (the `.min(3)` bound). -/
theorem validateClaimSet_min_length (j : Json) (S : ClaimSet)
    (h : validateClaimSet j = some S) : 3 ≤ S.claims.length := by
  cases j with
  | obj fields =>
    simp only [validateClaimSet, Option.bind_eq_bind, Option.bind_eq_some] at h
    obtain ⟨t, _, h⟩ := h
    cases hc : lookupField fields "claims" <;> simp [hc] at h
    case some v =>
      cases v <;> simp at h
      case arr l =>
        cases hv : validateClaims l <;> simp [hv] at h
        case some cs =>
          obtain ⟨hlen, hS⟩ := h
          subst hS
          simpa using hlen
  | str s => simp [validateClaimSet] at h
  | num q => simp [validateClaimSet] at h
  | bool b => simp [validateClaimSet] at h
  | null => simp [validateClaimSet] at h
  | arr l => simp [validateClaimSet] at h

/-- A validated `conflict_count` is non-negative (the `.int().min(0)` bound). -/
theorem asCountNum_nonneg (o : Option Json) (n : Int)
    (h : asCountNum o = some n) : 0 ≤ n := by
  cases o <;> simp [asCountNum] at h
  case some v =>
    cases v <;> simp [asCountNum] at h
    case num q =>
      obtain ⟨⟨_, hq⟩, hn⟩ := h
      subst hn
      exact Rat.num_nonneg.mpr hq

/-- A validated summary has a non-negative conflict count. -/
theorem validateSummary_nonneg (j : Json) (s : Summary)
    (h : validateSummary j = some s) : 0 ≤ s.conflict_count := by
  cases j <;> simp [validateSummary] at h
  case obj fields =>
    simp only [Option.bind_eq_bind, Option.bind_eq_some] at h
    obtain ⟨n, hn, dims, _, note, _, hs⟩ := h
    simp only [Option.some.injEq] at hs
    subst hs
    exact asCountNum_nonneg _ n hn

/-- A validated conflict report has a non-negative `conflict_count`. -/
theorem validateConflictReport_nonneg (j : Json) (R : ConflictReport)
    (h : validateConflictReport j = some R) : 0 ≤ R.summary.conflict_count := by
  cases j <;> simp [validateConflictReport] at h
  case obj fields =>
    simp only [Option.bind_eq_bind, Option.bind_eq_some] at h
    obtain ⟨t, _, h⟩ := h
    cases hc : lookupField fields "conflicts" <;> simp [hc] at h
    case some v =>
      cases v <;> simp at h
      case arr l =>
        cases hv : validateConflicts l <;> simp [hv] at h
        case some cs =>
          cases hs : validateSummary ((lookupField fields "summary").getD Json.null) <;>
            simp [hs] at h
          case some s =>
            subst h
            exact validateSummary_nonneg _ s hs

/-- Success-shape inversion for `discoverConflicts`: a successful run is
exactly the validated stage-2 report merged with the prefix-truncated
validated stage-1 claims, and the call trace is the two calls in order. -/
theorem discoverConflicts_ok_shape (jp : String → Option Json)
    (env : Nat → UpstreamResponse) (args : DiscoverArgs)
    (r : DiscoverResult) (calls : List GenCall)
    (h : discoverConflicts jp env args = (Except.ok r, calls)) :
    ∃ (j1 : Json) (S : ClaimSet) (j2 : Json) (R : ConflictReport),
      openaiJSON jp (env 0) = Except.ok j1 ∧
      validateClaimSet j1 = some S ∧
      openaiJSON jp (env 1) = Except.ok j2 ∧
      validateConflictReport j2 = some R ∧
      r = { topic := R.topic, conflicts := R.conflicts, summary := R.summary,
            claims := S.claims.take args.max_claims } ∧
      calls = [{ instructions := stage1Instructions args.max_claims args.strict_no_sources,
                 payload := stage1Payload args },
               { instructions := stage2Instructions args.strict_no_sources,
                 payload := stage2Payload S.topic (S.claims.take args.max_claims) }] := by
  simp only [discoverConflicts] at h
  cases h1 : openaiJSON jp (env 0) <;> simp [h1] at h
  case ok j1 =>
    cases h2 : validateClaimSet j1 <;> simp [h2] at h
    case some S =>
      cases h3 : openaiJSON jp (env 1) <;> simp [h3] at h
      case ok j2 =>
        cases h4 : validateConflictReport j2 <;> simp [h4] at h
        case some R =>
          exact ⟨j1, S, j2, R, rfl, h2, rfl, h4, h.1.symm, h.2.symm⟩

/-- Stage-1 client failure: the run aborts with that error after exactly one
generative call. -/
theorem discoverConflicts_stage1_error (jp : String → Option Json)
    (env : Nat → UpstreamResponse) (args : DiscoverArgs) (e : GenError)
    (h : openaiJSON jp (env 0) = Except.error e) :
    discoverConflicts jp env args =
      (Except.error (RunError.ofGen e),
       [{ instructions := stage1Instructions args.max_claims args.strict_no_sources,
          payload := stage1Payload args }]) := by
  simp [discoverConflicts, h]

/-- Stage-1 schema violation: the run aborts with a `SchemaValidationError`
carrying the rejected value, after exactly one generative call. -/
theorem discoverConflicts_stage1_invalid (jp : String → Option Json)
    (env : Nat → UpstreamResponse) (args : DiscoverArgs) (j1 : Json)
    (h : openaiJSON jp (env 0) = Except.ok j1)
    (hv : validateClaimSet j1 = none) :
    discoverConflicts jp env args =
      (Except.error (RunError.schemaViolation j1),
       [{ instructions := stage1Instructions args.max_claims args.strict_no_sources,
          payload := stage1Payload args }]) := by
  simp [discoverConflicts, h, hv]

/-- Stage-2 client failure after a validated stage 1: the run aborts with that
error; the validated claim set appears in no result. -/
theorem discoverConflicts_stage2_error (jp : String → Option Json)
    (env : Nat → UpstreamResponse) (args : DiscoverArgs) (j1 : Json)
    (S : ClaimSet) (e : GenError)
    (h1 : openaiJSON jp (env 0) = Except.ok j1)
    (hv : validateClaimSet j1 = some S)
    (h2 : openaiJSON jp (env 1) = Except.error e) :
    discoverConflicts jp env args =
      (Except.error (RunError.ofGen e),
       [{ instructions := stage1Instructions args.max_claims args.strict_no_sources,
          payload := stage1Payload args },
        { instructions := stage2Instructions args.strict_no_sources,
          payload := stage2Payload S.topic (S.claims.take args.max_claims) }]) := by
  simp [discoverConflicts, h1, hv, h2]

/-- Stage-2 schema violation after a validated stage 1: the run aborts with a
`SchemaValidationError` carrying the rejected value. -/
theorem discoverConflicts_stage2_invalid (jp : String → Option Json)
    (env : Nat → UpstreamResponse) (args : DiscoverArgs) (j1 j2 : Json)
    (S : ClaimSet)
    (h1 : openaiJSON jp (env 0) = Except.ok j1)
    (hv : validateClaimSet j1 = some S)
    (h2 : openaiJSON jp (env 1) = Except.ok j2)
    (hw : validateConflictReport j2 = none) :
    discoverConflicts jp env args =
      (Except.error (RunError.schemaViolation j2),
       [{ instructions := stage1Instructions args.max_claims args.strict_no_sources,
          payload := stage1Payload args },
        { instructions := stage2Instructions args.strict_no_sources,
          payload := stage2Payload S.topic (S.claims.take args.max_claims) }]) := by
  simp [discoverConflicts, h1, hv, h2, hw]

/-- Appending a binding for a fresh key does not change the lookup of any
other key. -/
theorem lookupField_append_fresh (fields : List (String × Json))
    (k : String) (v : Json) (key : String) (hne : key ≠ k) :
    lookupField (fields ++ [(k, v)]) key = lookupField fields key := by
  induction fields with
  | nil =>
    simp only [List.nil_append, lookupField]
    rw [if_neg (fun h => hne h.symm)]
  | cons p rest ih =>
    cases p with
    | mk k' v' =>
      by_cases hk : k' = key <;> simp [lookupField, hk, ih]

/-- A claims array with fewer than 3 entries always fails `ClaimSetSchema`
validation, whatever the entries are. -/
theorem validateClaimSet_short (t : String) (l : List Json)
    (hlen : l.length < 3) :
    validateClaimSet (Json.obj [("topic", Json.str t), ("claims", Json.arr l)]) =
      none := by
  simp only [validateClaimSet, lookupField]
  simp only [asStr, Option.bind_eq_bind]
  cases hv : validateClaims l with
  | none =>
    simp [lookupField]
    intro a ha
    rw [hv] at ha
    simp at ha
  | some cs =>
    have hcs : cs.length = l.length := validateClaims_length l cs hv
    simp [lookupField, hv, hcs, Nat.not_le.mpr hlen]

/-- The anti-fabrication directive occurs verbatim in the stage-1 instruction
string. -/
theorem stage1_contains_antiCitation (mc : Nat) (strict : Bool) :
    containsStr (stage1Instructions mc strict) (antiCitation strict) := by
  refine ⟨("You enumerate conflicting scientific claims that exist in the literature or popular summaries."
            ++ "\n" ++ "Do not reconcile disagreements. Do not average them."
            ++ "\n" ++ "Each claim must be atomic and testable."
            ++ "\n" ++ "Separate by paradigm, definition, and scope when relevant."
            ++ "\n").data,
          ("\n" ++ "Max claims: " ++ toString mc).data, ?_⟩
  simp only [stage1Instructions, joinNewline, String.data_append, List.append_assoc]

/-- The anti-fabrication directive occurs verbatim in the stage-2 instruction
string. -/
theorem stage2_contains_antiCitation (strict : Bool) :
    containsStr (stage2Instructions strict) (antiCitation strict) := by
  refine ⟨("You are a contradiction auditor."
            ++ "\n" ++ "Given claims, identify conflicts that cannot both be true under the same scope and definition."
            ++ "\n" ++ "If contradiction depends on scope/definition shifts, mark conflict_type accordingly."
            ++ "\n" ++ "Prioritize conflicts that would mislead a researcher if cited without qualifiers."
            ++ "\n").data,
          [], ?_⟩
  simp only [stage2Instructions, joinNewline, String.data_append, List.append_assoc,
    List.append_nil]

/-- The numeric cap is embedded in the stage-1 instruction string. -/
theorem stage1_contains_cap (mc : Nat) (strict : Bool) :
    containsStr (stage1Instructions mc strict) ("Max claims: " ++ toString mc) := by
  refine ⟨("You enumerate conflicting scientific claims that exist in the literature or popular summaries."
            ++ "\n" ++ "Do not reconcile disagreements. Do not average them."
            ++ "\n" ++ "Each claim must be atomic and testable."
            ++ "\n" ++ "Separate by paradigm, definition, and scope when relevant."
            ++ "\n" ++ antiCitation strict ++ "\n").data,
          [], ?_⟩
  simp only [stage1Instructions, joinNewline, String.data_append, List.append_assoc,
    List.append_nil]

/-! ## Concrete fixtures: a full run whose stage-2 output has a dangling
claim reference and a wrong conflict count, a run whose stage 2 fails with
HTTP 500, and a run whose stage 1 returns only two claims. -/

/-- A minimal valid claim object with the given id (optional fields absent). -/
def mkClaimJson (id : String) : Json :=
  Json.obj [("claim_id", Json.str id), ("assertion", Json.str "a"),
            ("dimension", Json.str "d"), ("polarity", Json.str "affirm"),
            ("confidence", Json.num 1)]

/-- The claim `mkClaimJson id` validates to. -/
def claimC (id : String) : Claim :=
  { claim_id := id, assertion := "a", dimension := "d",
    polarity := Polarity.affirm, value := none, qualifiers := [],
    definition_notes := none, era_hint := none, confidence := 1,
    why_people_repeat_it := none }

/-- A stage-1 output with three valid claims and its own topic. -/
def claimSetJsonA : Json :=
  Json.obj [("topic", Json.str "modelTopic"),
            ("claims", Json.arr [mkClaimJson "c1", mkClaimJson "c2", mkClaimJson "c3"])]

/-- `claimSetJsonA` validated. -/
def claimSetA : ClaimSet :=
  { topic := "modelTopic", claims := [claimC "c1", claimC "c2", claimC "c3"] }

/-- A schema-valid conflict whose `claim_a` references no claim of the run. -/
def conflictJsonGhost : Json :=
  Json.obj [("conflict_id", Json.str "k1"), ("dimension", Json.str "d"),
            ("claim_a", Json.str "ghost"), ("claim_b", Json.str "c2"),
            ("conflict_type", Json.str "other"), ("explanation", Json.str "e"),
            ("severity", Json.num 1), ("researcher_warning", Json.str "w")]

/-- A stage-2 output that passes `ConflictReportSchema` although its one
conflict dangles (`claim_a = "ghost"`) and its `conflict_count` is 5. -/
def reportJsonA : Json :=
  Json.obj [("topic", Json.str "reportTopic"),
            ("conflicts", Json.arr [conflictJsonGhost]),
            ("summary", Json.obj [("conflict_count", Json.num 5),
                                  ("safe_citation_note", Json.str "n")])]

/-- `JSON.parse` on the four texts this run meets: the two response bodies
and the two `output_text` payloads. -/
def jpA : String → Option Json := fun s =>
  if s = "w1" then some (Json.obj [("output_text", Json.str "p1")])
  else if s = "p1" then some claimSetJsonA
  else if s = "w2" then some (Json.obj [("output_text", Json.str "p2")])
  else if s = "p2" then some reportJsonA
  else none

/-- Both upstream calls succeed. -/
def envA : Nat → UpstreamResponse := fun i =>
  if i = 0 then { ok := true, status := 200, body := "w1" }
  else { ok := true, status := 200, body := "w2" }

/-- A discovery request whose own topic differs from both model topics. -/
def argsA : DiscoverArgs :=
  { topic := "userTopic", domain := none, depth := "academic",
    max_claims := 18, strict_no_sources := true }

/-- The composite result the run `(jpA, envA, argsA)` returns. -/
def resultA : DiscoverResult :=
  { topic := "reportTopic",
    conflicts := [{ conflict_id := "k1", dimension := "d", claim_a := "ghost",
                    claim_b := "c2", conflict_type := ConflictType.other,
                    explanation := "e", severity := 1, researcher_warning := "w" }],
    summary := { conflict_count := 5, top_dimensions := [], safe_citation_note := "n" },
    claims := [claimC "c1", claimC "c2", claimC "c3"] }

/-- The two generative calls of that run. -/
def callsA : List GenCall :=
  [{ instructions := stage1Instructions 18 true, payload := stage1Payload argsA },
   { instructions := stage2Instructions true,
     payload := stage2Payload "modelTopic" [claimC "c1", claimC "c2", claimC "c3"] }]

/-- Stage 1 succeeds as in `envA`, stage 2 returns HTTP 500. -/
def envB : Nat → UpstreamResponse := fun i =>
  if i = 0 then { ok := true, status := 200, body := "w1" }
  else { ok := false, status := 500, body := "Internal Server Error" }

/-- A stage-1 output with only two claims. -/
def claimSetJsonShort : Json :=
  Json.obj [("topic", Json.str "t"),
            ("claims", Json.arr [mkClaimJson "c1", mkClaimJson "c2"])]

/-- `JSON.parse` for the short run. -/
def jpC : String → Option Json := fun s =>
  if s = "w1" then some (Json.obj [("output_text", Json.str "p1")])
  else if s = "p1" then some claimSetJsonShort
  else none

/-- A response whose body is JSON but whose `output_text` is absent, so the
text to parse is `""` and `JSON.parse` fails. -/
def respBad : UpstreamResponse := { ok := true, status := 200, body := "w3" }

/-- `JSON.parse` for `respBad`: the body parses to an object with no
`output_text`; nothing else parses. -/
def jpBad : String → Option Json := fun s =>
  if s = "w3" then some (Json.obj []) else none

/-- A plain HTTP 500 response. -/
def resp500 : UpstreamResponse := { ok := false, status := 500, body := "boom" }

/-! ## Claims -/

/-- C1 (counterexample): the run `(jpA, envA, argsA)` returns successfully,
yet its one conflict references `claim_a = "ghost"`, which is not the
`claim_id` of any claim in the returned claims list: the stated referential
integrity does not hold for every successfully returned composite result. -/
theorem C1_counterexample :
    (discoverConflicts jpA envA argsA).1 = Except.ok resultA ∧
    ¬ (∀ c ∈ resultA.conflicts,
        (∃ cl ∈ resultA.claims, c.claim_a = cl.claim_id) ∧
        (∃ cl ∈ resultA.claims, c.claim_b = cl.claim_id)) :=
  ⟨rfl, by decide⟩

/-- C1 (amended): the conflicts of a successfully returned composite result
are exactly the conflicts of the validated stage-2 output, and the claims
exactly the truncated validated stage-1 claims; `ConflictSchema` constrains
`claim_a` and `claim_b` only to be strings, and the pipeline performs no
cross-check tying them to the returned claims list. -/
theorem C1_conflicts_pass_through (jp : String → Option Json)
    (env : Nat → UpstreamResponse) (args : DiscoverArgs)
    (r : DiscoverResult) (calls : List GenCall)
    (h : discoverConflicts jp env args = (Except.ok r, calls)) :
    ∃ (j1 : Json) (S : ClaimSet) (j2 : Json) (R : ConflictReport),
      openaiJSON jp (env 0) = Except.ok j1 ∧
      validateClaimSet j1 = some S ∧
      openaiJSON jp (env 1) = Except.ok j2 ∧
      validateConflictReport j2 = some R ∧
      r.conflicts = R.conflicts ∧
      r.claims = S.claims.take args.max_claims := by
  obtain ⟨j1, S, j2, R, h1, h2, h3, h4, hr, _⟩ :=
    discoverConflicts_ok_shape jp env args r calls h
  exact ⟨j1, S, j2, R, h1, h2, h3, h4, by rw [hr], by rw [hr]⟩

/-- C1 witness: the amended theorem applied to the concrete run. -/
theorem C1_witness :
    discoverConflicts jpA envA argsA = (Except.ok resultA, callsA) ∧
    ∃ (j1 : Json) (S : ClaimSet) (j2 : Json) (R : ConflictReport),
      openaiJSON jpA (envA 0) = Except.ok j1 ∧
      validateClaimSet j1 = some S ∧
      openaiJSON jpA (envA 1) = Except.ok j2 ∧
      validateConflictReport j2 = some R ∧
      resultA.conflicts = R.conflicts ∧
      resultA.claims = S.claims.take argsA.max_claims :=
  ⟨rfl, C1_conflicts_pass_through jpA envA argsA resultA callsA rfl⟩

/-- C2 (counterexample): the same successful run returns
`summary.conflict_count = 5` while the conflicts array has length 1:
`conflict_count` does not equal the length of the returned conflicts. -/
theorem C2_counterexample :
    (discoverConflicts jpA envA argsA).1 = Except.ok resultA ∧
    resultA.summary.conflict_count ≠ (resultA.conflicts.length : Int) :=
  ⟨rfl, by decide⟩

/-- C2 (amended): the summary's `conflict_count` of a successfully returned
composite result is only guaranteed to be a non-negative integer (the
`.int().min(0)` bound of the schema); it equals the length of the returned
conflicts array only if the stage-2 output already says so. -/
theorem C2_count_nonneg (jp : String → Option Json)
    (env : Nat → UpstreamResponse) (args : DiscoverArgs)
    (r : DiscoverResult) (calls : List GenCall)
    (h : discoverConflicts jp env args = (Except.ok r, calls)) :
    0 ≤ r.summary.conflict_count := by
  obtain ⟨j1, S, j2, R, _, _, _, h4, hr, _⟩ :=
    discoverConflicts_ok_shape jp env args r calls h
  subst hr
  simpa using validateConflictReport_nonneg j2 R h4

/-- C2 witness: the amended theorem applied to the concrete run. -/
theorem C2_witness :
    discoverConflicts jpA envA argsA = (Except.ok resultA, callsA) ∧
    0 ≤ resultA.summary.conflict_count :=
  ⟨rfl, C2_count_nonneg jpA envA argsA resultA callsA rfl⟩

/-- C3: once stage-1 output validates, the claim list used as stage-2 input
and attached to the final result is exactly the prefix of the first
`max_claims` validated stage-1 claims in original order (a prefix of the
stage-1 list), its length is at most `max_claims` and at least 1 (validation
guarantees at least 3 claims before truncation). -/
theorem C3_prefix_truncation (jp : String → Option Json)
    (env : Nat → UpstreamResponse) (args : DiscoverArgs)
    (r : DiscoverResult) (calls : List GenCall)
    (hmc : 1 ≤ args.max_claims)
    (h : discoverConflicts jp env args = (Except.ok r, calls)) :
    ∃ (j1 : Json) (S : ClaimSet),
      openaiJSON jp (env 0) = Except.ok j1 ∧
      validateClaimSet j1 = some S ∧
      r.claims = S.claims.take args.max_claims ∧
      (∃ rest, r.claims ++ rest = S.claims) ∧
      r.claims.length ≤ args.max_claims ∧
      1 ≤ r.claims.length ∧
      (∃ c ∈ calls, c.payload = stage2Payload S.topic r.claims) := by
  obtain ⟨j1, S, j2, R, h1, h2, h3, h4, hr, hcalls⟩ :=
    discoverConflicts_ok_shape jp env args r calls h
  subst hr
  subst hcalls
  have hlen3 := validateClaimSet_min_length j1 S h2
  refine ⟨j1, S, h1, h2, rfl,
    ⟨S.claims.drop args.max_claims, List.take_append_drop _ _⟩, ?_, ?_, ?_⟩
  · simp only [List.length_take]
    omega
  · simp only [List.length_take]
    omega
  · exact ⟨{ instructions := stage2Instructions args.strict_no_sources,
             payload := stage2Payload S.topic (S.claims.take args.max_claims) },
           by simp, rfl⟩

/-- C3 witness: the theorem applied to the concrete run (`max_claims = 18`,
three validated claims, all three kept). -/
theorem C3_witness :
    1 ≤ argsA.max_claims ∧
    discoverConflicts jpA envA argsA = (Except.ok resultA, callsA) ∧
    ∃ (j1 : Json) (S : ClaimSet),
      openaiJSON jpA (envA 0) = Except.ok j1 ∧
      validateClaimSet j1 = some S ∧
      resultA.claims = S.claims.take argsA.max_claims ∧
      (∃ rest, resultA.claims ++ rest = S.claims) ∧
      resultA.claims.length ≤ argsA.max_claims ∧
      1 ≤ resultA.claims.length ∧
      (∃ c ∈ callsA, c.payload = stage2Payload S.topic resultA.claims) :=
  ⟨by decide, rfl,
   C3_prefix_truncation jpA envA argsA resultA callsA (by decide) rfl⟩

/-- C4: in the generative client, a non-success response fails with the
upstream error carrying the response status and body; a success response
whose text is not parseable as JSON fails with the parse error carrying the
raw text; the two failure kinds are distinct constructors; and one client
invocation consumes exactly one response (no internal retry), whether it
succeeds or fails. -/
theorem C4_client_error_semantics (jp : String → Option Json)
    (resp : UpstreamResponse) :
    (resp.ok = false →
      openaiJSON jp resp =
        Except.error (GenError.upstreamError resp.status resp.body)) ∧
    (∀ data : Json, resp.ok = true → jp resp.body = some data →
      jp (outputTextOf data) = none →
      openaiJSON jp resp =
        Except.error (GenError.parseError (outputTextOf data))) ∧
    (∀ (s : Nat) (b t : String),
      GenError.upstreamError s b ≠ GenError.parseError t) ∧
    (∀ (env : Nat → UpstreamResponse) (i : Nat),
      (openaiCall jp env i).2 = i + 1) := by
  refine ⟨?_, ?_, ?_, ?_⟩
  · intro hok
    simp [openaiJSON, hok]
  · intro data hok hbody hout
    simp [openaiJSON, hok, hbody, hout]
  · intro s b t
    simp
  · intro env i
    rfl

/-- C4 witness: an HTTP 500 response yields the upstream error with status
500 and body; a 200 response whose `output_text` is absent (so the text to
parse is `""`) yields the parse error with the raw text; the two are
distinct; the failing call consumed exactly one response. -/
theorem C4_witness :
    resp500.ok = false ∧
    respBad.ok = true ∧
    jpBad respBad.body = some (Json.obj []) ∧
    jpBad (outputTextOf (Json.obj [])) = none ∧
    openaiJSON jpBad resp500 =
      Except.error (GenError.upstreamError 500 "boom") ∧
    openaiJSON jpBad respBad = Except.error (GenError.parseError "") ∧
    GenError.upstreamError 500 "boom" ≠ GenError.parseError "" ∧
    (openaiCall jpBad envA 0).2 = 1 :=
  ⟨rfl, rfl, rfl, rfl,
   (C4_client_error_semantics jpBad resp500).1 rfl,
   (C4_client_error_semantics jpBad respBad).2.1 (Json.obj []) rfl rfl rfl,
   (C4_client_error_semantics jpBad respBad).2.2.1 500 "boom" "",
   (C4_client_error_semantics jpBad respBad).2.2.2 envA 0⟩

/-- C5: every failure aborts the whole run with an error and nothing else:
a stage-1 client failure, a stage-1 schema violation, a stage-2 client
failure after a validated stage 1, and a stage-2 schema violation each
produce an error result (which carries no claims and no report — in
particular a stage-2 failure discards the already-validated stage-1
claim set rather than returning it). -/
theorem C5_no_partial_results (jp : String → Option Json)
    (env : Nat → UpstreamResponse) (args : DiscoverArgs) :
    (∀ e, openaiJSON jp (env 0) = Except.error e →
      discoverConflicts jp env args =
        (Except.error (RunError.ofGen e),
         [{ instructions := stage1Instructions args.max_claims args.strict_no_sources,
            payload := stage1Payload args }])) ∧
    (∀ j1, openaiJSON jp (env 0) = Except.ok j1 → validateClaimSet j1 = none →
      discoverConflicts jp env args =
        (Except.error (RunError.schemaViolation j1),
         [{ instructions := stage1Instructions args.max_claims args.strict_no_sources,
            payload := stage1Payload args }])) ∧
    (∀ j1 S e, openaiJSON jp (env 0) = Except.ok j1 →
      validateClaimSet j1 = some S →
      openaiJSON jp (env 1) = Except.error e →
      discoverConflicts jp env args =
        (Except.error (RunError.ofGen e),
         [{ instructions := stage1Instructions args.max_claims args.strict_no_sources,
            payload := stage1Payload args },
          { instructions := stage2Instructions args.strict_no_sources,
            payload := stage2Payload S.topic (S.claims.take args.max_claims) }])) ∧
    (∀ j1 S j2, openaiJSON jp (env 0) = Except.ok j1 →
      validateClaimSet j1 = some S →
      openaiJSON jp (env 1) = Except.ok j2 →
      validateConflictReport j2 = none →
      discoverConflicts jp env args =
        (Except.error (RunError.schemaViolation j2),
         [{ instructions := stage1Instructions args.max_claims args.strict_no_sources,
            payload := stage1Payload args },
          { instructions := stage2Instructions args.strict_no_sources,
            payload := stage2Payload S.topic (S.claims.take args.max_claims) }])) :=
  ⟨fun e h => discoverConflicts_stage1_error jp env args e h,
   fun j1 h hv => discoverConflicts_stage1_invalid jp env args j1 h hv,
   fun j1 S e h1 hv h2 => discoverConflicts_stage2_error jp env args j1 S e h1 hv h2,
   fun j1 S j2 h1 hv h2 hw => discoverConflicts_stage2_invalid jp env args j1 j2 S h1 hv h2 hw⟩

/-- C5 witness: a run whose validated stage 1 is followed by a stage-2
HTTP 500 aborts with the upstream error carrying status 500; the validated
claim set appears only in the discarded stage-2 payload, not in any result. -/
theorem C5_witness :
    openaiJSON jpA (envB 0) = Except.ok claimSetJsonA ∧
    validateClaimSet claimSetJsonA = some claimSetA ∧
    openaiJSON jpA (envB 1) =
      Except.error (GenError.upstreamError 500 "Internal Server Error") ∧
    discoverConflicts jpA envB argsA =
      (Except.error (RunError.upstream 500 "Internal Server Error"),
       [{ instructions := stage1Instructions 18 true, payload := stage1Payload argsA },
        { instructions := stage2Instructions true,
          payload := stage2Payload "modelTopic" [claimC "c1", claimC "c2", claimC "c3"] }]) :=
  ⟨rfl, rfl, rfl,
   (C5_no_partial_results jpA envB argsA).2.2.1 claimSetJsonA claimSetA
     (GenError.upstreamError 500 "Internal Server Error") rfl rfl rfl⟩

/-- C6: a stage-1 output shaped as a claim set whose claims array has fewer
than 3 entries fails `ClaimSetSchema` validation whatever the entries are;
the run aborts with the schema-violation error after exactly one generative
call, so no stage-2 call is made. -/
theorem C6_two_claims_rejected (jp : String → Option Json)
    (env : Nat → UpstreamResponse) (args : DiscoverArgs)
    (j1 : Json) (t : String) (l : List Json)
    (h : openaiJSON jp (env 0) = Except.ok j1)
    (hj : j1 = Json.obj [("topic", Json.str t), ("claims", Json.arr l)])
    (hlen : l.length < 3) :
    discoverConflicts jp env args =
      (Except.error (RunError.schemaViolation j1),
       [{ instructions := stage1Instructions args.max_claims args.strict_no_sources,
          payload := stage1Payload args }]) ∧
    (discoverConflicts jp env args).2.length = 1 := by
  have hv : validateClaimSet j1 = none := by
    rw [hj]
    exact validateClaimSet_short t l hlen
  have habort := discoverConflicts_stage1_invalid jp env args j1 h hv
  exact ⟨habort, by rw [habort]; rfl⟩

/-- C6 witness: a stage-1 response with exactly two claims aborts the run
with the schema-violation error and a one-element call trace. -/
theorem C6_witness :
    openaiJSON jpC (envA 0) = Except.ok claimSetJsonShort ∧
    ([mkClaimJson "c1", mkClaimJson "c2"] : List Json).length < 3 ∧
    discoverConflicts jpC envA argsA =
      (Except.error (RunError.schemaViolation claimSetJsonShort),
       [{ instructions := stage1Instructions 18 true,
          payload := stage1Payload argsA }]) ∧
    (discoverConflicts jpC envA argsA).2.length = 1 :=
  ⟨rfl, by decide,
   (C6_two_claims_rejected jpC envA argsA claimSetJsonShort "t"
      [mkClaimJson "c1", mkClaimJson "c2"] rfl rfl (by decide)).1,
   (C6_two_claims_rejected jpC envA argsA claimSetJsonShort "t"
      [mkClaimJson "c1", mkClaimJson "c2"] rfl rfl (by decide)).2⟩

/-- C7: for every `max_claims`, when `strict_no_sources` is true both
instruction strings contain the strong anti-fabrication directive (invented
citations, paper titles, authors, journals, DOIs), when false both contain
the weaker prohibition on fabricated citations, and the stage-1 string
embeds the numeric cap `max_claims`. -/
theorem C7_anti_fabrication_policy : ∀ mc : Nat,
    containsStr (stage1Instructions mc true) strongAntiFabrication ∧
    containsStr (stage2Instructions true) strongAntiFabrication ∧
    containsStr (stage1Instructions mc false) weakAntiFabrication ∧
    containsStr (stage2Instructions false) weakAntiFabrication ∧
    (∀ strict : Bool,
      containsStr (stage1Instructions mc strict) ("Max claims: " ++ toString mc)) :=
  fun mc =>
    ⟨stage1_contains_antiCitation mc true,
     stage2_contains_antiCitation true,
     stage1_contains_antiCitation mc false,
     stage2_contains_antiCitation false,
     fun strict => stage1_contains_cap mc strict⟩

/-- C8: `trackEvent` never surfaces a failure (any fetch rejection is
swallowed), the tool handler's outcome is independent of the analytics
outcome, and on a successful pipeline run the handler returns the composite
result unchanged whatever the analytics outcome — an unreachable analytics
endpoint cannot turn a successful invocation into a failed one. -/
theorem C8_analytics_swallowed (jp : String → Option Json)
    (env : Nat → UpstreamResponse) (args : DiscoverArgs)
    (phKey phHost : String) :
    (∀ o : Except String Unit, trackEvent phKey phHost o = Except.ok ()) ∧
    (∀ o o' : Except String Unit,
      toolHandler jp env args phKey phHost o =
        toolHandler jp env args phKey phHost o') ∧
    (∀ (o : Except String Unit) (r : DiscoverResult) (calls : List GenCall),
      discoverConflicts jp env args = (Except.ok r, calls) →
      toolHandler jp env args phKey phHost o =
        (Except.ok { text := "Conflict Lens report ready.",
                     structuredContent := r }, calls)) := by
  have htrack : ∀ o : Except String Unit,
      trackEvent phKey phHost o = Except.ok () := by
    intro o
    by_cases hcfg : phKey = "" ∨ phHost = ""
    · simp [trackEvent, hcfg]
    · cases o <;> simp [trackEvent, hcfg]
  refine ⟨htrack, ?_, ?_⟩
  · intro o o'
    simp only [toolHandler, htrack]
  · intro o r calls h
    simp only [toolHandler, h, htrack]

/-- C8 witness: with the analytics fetch rejecting (endpoint unreachable),
the handler still returns the successful composite result. -/
theorem C8_witness :
    discoverConflicts jpA envA argsA = (Except.ok resultA, callsA) ∧
    toolHandler jpA envA argsA "phk" "phh"
        (Except.error "analytics endpoint unreachable") =
      (Except.ok { text := "Conflict Lens report ready.",
                   structuredContent := resultA }, callsA) :=
  ⟨rfl,
   (C8_analytics_swallowed jpA envA argsA "phk" "phh").2.2
     (Except.error "analytics endpoint unreachable") resultA callsA rfl⟩

/-- The keys `ClaimSchema` declares: validation reads exactly these. -/
def claimKeys : List String :=
  ["claim_id", "assertion", "dimension", "polarity", "value", "qualifiers",
   "definition_notes", "era_hint", "confidence", "why_people_repeat_it"]

/-- Claim validation only depends on the declared keys. -/
theorem validateClaimFields_congr (g g' : String → Option Json)
    (h : ∀ key ∈ claimKeys, g key = g' key) :
    validateClaimFields g = validateClaimFields g' := by
  have h1 := h "claim_id" (by simp [claimKeys])
  have h2 := h "assertion" (by simp [claimKeys])
  have h3 := h "dimension" (by simp [claimKeys])
  have h4 := h "polarity" (by simp [claimKeys])
  have h5 := h "value" (by simp [claimKeys])
  have h6 := h "qualifiers" (by simp [claimKeys])
  have h7 := h "definition_notes" (by simp [claimKeys])
  have h8 := h "era_hint" (by simp [claimKeys])
  have h9 := h "confidence" (by simp [claimKeys])
  have h10 := h "why_people_repeat_it" (by simp [claimKeys])
  simp only [validateClaimFields, h1, h2, h3, h4, h5, h6, h7, h8, h9, h10]

/-- C9: the validators are pure functions of their input — validating the
same value twice yields the same decision (they are Lean functions, and the
model has no mutation to express) — and appending an extra field with an
unknown key to a claim entry changes nothing about its validation (in
particular it cannot cause rejection). -/
theorem C9_validators_pure (j : Json) (fields : List (String × Json))
    (k : String) (v : Json) (hk : k ∉ claimKeys) :
    validateClaimSet j = validateClaimSet j ∧
    validateConflictReport j = validateConflictReport j ∧
    validateClaim (Json.obj (fields ++ [(k, v)])) =
      validateClaim (Json.obj fields) := by
  refine ⟨rfl, rfl, ?_⟩
  simp only [validateClaim]
  apply validateClaimFields_congr
  intro key hkey
  exact lookupField_append_fresh fields k v key (fun he => hk (he ▸ hkey))

/-- C9 witness: adding an unknown `source_url` field to a valid claim entry
leaves its (accepting) validation unchanged. -/
theorem C9_witness :
    "source_url" ∉ claimKeys ∧
    validateClaim (Json.obj
      ([("claim_id", Json.str "c1"), ("assertion", Json.str "a"),
        ("dimension", Json.str "d"), ("polarity", Json.str "affirm"),
        ("confidence", Json.num 1)] ++ [("source_url", Json.str "u")])) =
      validateClaim (mkClaimJson "c1") :=
  ⟨by decide,
   (C9_validators_pure Json.null
      [("claim_id", Json.str "c1"), ("assertion", Json.str "a"),
       ("dimension", Json.str "d"), ("polarity", Json.str "affirm"),
       ("confidence", Json.num 1)]
      "source_url" (Json.str "u") (by decide)).2.2⟩

/-- C10: the stage-2 input payload's topic is the validated stage-1 claim
set's own `topic` field, and the returned composite result's topic is the
validated stage-2 report's `topic` field; neither is guaranteed to equal
the request's `topic` parameter, as the concrete run shows (request topic
"userTopic", stage-1 topic "modelTopic", returned topic "reportTopic"). -/
theorem C10_topics_from_model_output (jp : String → Option Json)
    (env : Nat → UpstreamResponse) (args : DiscoverArgs)
    (r : DiscoverResult) (calls : List GenCall)
    (h : discoverConflicts jp env args = (Except.ok r, calls)) :
    (∃ (j1 : Json) (S : ClaimSet) (j2 : Json) (R : ConflictReport),
      openaiJSON jp (env 0) = Except.ok j1 ∧
      validateClaimSet j1 = some S ∧
      openaiJSON jp (env 1) = Except.ok j2 ∧
      validateConflictReport j2 = some R ∧
      calls.map GenCall.payload =
        [stage1Payload args,
         stage2Payload S.topic (S.claims.take args.max_claims)] ∧
      r.topic = R.topic) ∧
    ((discoverConflicts jpA envA argsA).1 = Except.ok resultA ∧
     validateClaimSet claimSetJsonA = some claimSetA ∧
     claimSetA.topic ≠ argsA.topic ∧
     resultA.topic ≠ argsA.topic) := by
  refine ⟨?_, rfl, rfl, by decide, by decide⟩
  obtain ⟨j1, S, j2, R, h1, h2, h3, h4, hr, hcalls⟩ :=
    discoverConflicts_ok_shape jp env args r calls h
  exact ⟨j1, S, j2, R, h1, h2, h3, h4, by rw [hcalls]; rfl, by rw [hr]⟩

/-- C10 witness: the theorem applied to the concrete run. -/
theorem C10_witness :
    discoverConflicts jpA envA argsA = (Except.ok resultA, callsA) ∧
    ((∃ (j1 : Json) (S : ClaimSet) (j2 : Json) (R : ConflictReport),
      openaiJSON jpA (envA 0) = Except.ok j1 ∧
      validateClaimSet j1 = some S ∧
      openaiJSON jpA (envA 1) = Except.ok j2 ∧
      validateConflictReport j2 = some R ∧
      callsA.map GenCall.payload =
        [stage1Payload argsA,
         stage2Payload S.topic (S.claims.take argsA.max_claims)] ∧
      resultA.topic = R.topic) ∧
    ((discoverConflicts jpA envA argsA).1 = Except.ok resultA ∧
     validateClaimSet claimSetJsonA = some claimSetA ∧
     claimSetA.topic ≠ argsA.topic ∧
     resultA.topic ≠ argsA.topic)) :=
  ⟨rfl, C10_topics_from_model_output jpA envA argsA resultA callsA rfl⟩
